import Mathlib

/-!
Shallow embedding of the real-time chat subsystem of the Apx repository:
the socket.io event handlers of the server (`send_message`, `message_reaction`,
`join`, `disconnect`) together with the flat-file store helpers
(`readDatabase` / `writeDatabase`), and the client-side cache reconciler
(`SocketContext.tsx`, `ChatRoom.tsx`, `utils/storage.ts`).

Records are translated field by field from the source; fields that none of the
modelled operations read or write (profile strings, avatars, file references)
are omitted, and ISO timestamp strings are represented by abstract `Nat`
clock values supplied by the caller (the source obtains them from
`new Date().toISOString()`).
-/

namespace Apx

/-- A reaction entry, from the object literal pushed in the `message_reaction`
handler: `{ userId, emoji, createdAt }`. -/
structure Reaction where
  userId : String
  emoji : String
  createdAt : Nat
  deriving Repr, DecidableEq

/-- A chat message, from the object literal built in the `send_message`
handler (`replies` is always empty and never read by the modelled code, so it
is omitted). -/
structure Message where
  id : String
  senderId : String
  receiverId : Option String
  groupId : Option String
  content : String
  type : String
  createdAt : Nat
  updatedAt : Nat
  reactions : List Reaction
  isEdited : Bool
  deriving Repr, DecidableEq

/-- A group record, from the `/api/groups` POST handler. -/
structure Group where
  id : String
  name : String
  members : List String
  createdBy : String
  deriving Repr, DecidableEq

/-- A user record restricted to the fields the presence code touches
(`id`, `isOnline`, `lastSeen`). -/
structure UserRec where
  id : String
  isOnline : Bool
  lastSeen : Nat
  deriving Repr, DecidableEq

/-! ### Store helpers -/

/-- `writeDatabase` (part_000 lines 105-111): the `fs.writeFile` outcome is
passed in as `underlying`; the `catch` block logs the error and returns
normally, so the caller always observes success. -/
def writeDatabase (underlying : Except String Unit) : Except String Unit :=
  match underlying with
  | .ok _ => .ok ()
  | .error _ => .ok ()

/-! ### The reaction reducer

The body of the `message_reaction` handler (part_000 lines 527-545), as a pure
function of the message, the requesting user, the emoji, and the clock. -/

/-- Mutating `existingReaction.emoji = data.emoji` updates the first list entry
whose `userId` matches, in place. -/
def setEmojiFirst (userId emoji : String) : List Reaction → List Reaction
  | [] => []
  | r :: rs =>
    if r.userId == userId then { r with emoji := emoji } :: rs
    else r :: setEmojiFirst userId emoji rs

/-- The three-way toggle of the `message_reaction` handler:
`find` the user's existing reaction; same emoji removes it (`filter`),
different emoji overwrites it in place, absent appends a fresh entry;
`updatedAt` is always refreshed. -/
def applyReaction (m : Message) (userId emoji : String) (t : Nat) : Message :=
  match m.reactions.find? (fun r => r.userId == userId) with
  | some r =>
    if r.emoji == emoji then
      { m with reactions := m.reactions.filter (fun s => s.userId != userId),
               updatedAt := t }
    else
      { m with reactions := setEmojiFirst userId emoji m.reactions,
               updatedAt := t }
  | none =>
    { m with reactions := m.reactions ++ [⟨userId, emoji, t⟩],
             updatedAt := t }

/-- The multiset of emojis user `u` currently has on `m` (the code's invariant
keeps it at zero or one entry). -/
def userEmojis (u : String) (m : Message) : List String :=
  (m.reactions.filter (fun r => r.userId == u)).map (fun r => r.emoji)

/-- Invariant: at most one reaction entry per user on a message. -/
def atMostOnePerUser (m : Message) : Prop :=
  ∀ v : String, (m.reactions.countP (fun r => r.userId == v)) ≤ 1

/-! ### Server-emitted socket events

One constructor per `emit` call site of the modelled handlers.  A target of
`none` models `io.to(undefined)` (the room named by an absent payload field);
`messageSent` and the two error events go to the originating socket only.
`messageUpdated` carries the list of rooms named in its single chained
`io.to(...).to(...)` emit. -/
inductive SEvent where
  | receiveMessage (target : Option String) (m : Message)
  | messageSent (m : Message)
  | messageUpdated (targets : List (Option String)) (m : Message)
  | messageError (err : String)
  | reactionError (err : String)
  | userOnline (userId : String)
  | userOffline (userId : String)
  deriving Repr, DecidableEq

/-! ### The send_message handler (part_000 lines 483-520) -/

/-- Payload of a client `send_message` event (optional fields may be absent). -/
structure SendData where
  senderId : String
  receiverId : Option String
  groupId : Option String
  content : String
  type : Option String
  deriving Repr, DecidableEq

/-- The message literal constructed by the handler (`id` from `uuidv4()`,
timestamps from the clock, `reactions: []`, `isEdited: false`). -/
def mkMessage (newId : String) (t : Nat) (d : SendData) : Message :=
  { id := newId
    senderId := d.senderId
    receiverId := d.receiverId
    groupId := d.groupId
    content := d.content
    type := d.type.getD "text"
    createdAt := t
    updatedAt := t
    reactions := []
    isEdited := false }

/-- The fanout tail of the handler: group branch reads the groups collection
and unicasts `receive_message` to every member of the group found by id
(nothing if the id does not resolve); direct branch emits `receive_message`
to the receiver's room and `message_sent` back to the sender's socket. -/
def sendMessageFanout (groupsStore : List Group) (d : SendData) (msg : Message) :
    List SEvent :=
  match d.groupId with
  | some gid =>
    match groupsStore.find? (fun g => g.id == gid) with
    | some g => g.members.map (fun memberId => SEvent.receiveMessage (some memberId) msg)
    | none => []
  | none => [SEvent.receiveMessage d.receiverId msg, SEvent.messageSent msg]

/-- The whole `send_message` handler: build the message, append it to the
messages collection, `writeDatabase` it (a failing underlying write — `fsOk =
false` — is caught inside `writeDatabase`, so the handler continues), then fan
out.  Returns the on-disk messages collection and the emitted events. -/
def sendMessageHandler (msgsDisk : List Message) (groupsStore : List Group)
    (d : SendData) (newId : String) (t : Nat) (fsOk : Bool) :
    List Message × List SEvent :=
  let msg := mkMessage newId t d
  let messages := msgsDisk ++ [msg]
  let _ := writeDatabase (if fsOk then .ok () else .error "EIO")
  let disk := if fsOk then messages else msgsDisk
  (disk, sendMessageFanout groupsStore d msg)

/-! ### The message_reaction handler (part_000 lines 522-563) -/

/-- `messages[messageIndex] = ...` after `findIndex`: update the first element
satisfying the predicate, in place. -/
def updateFirst (p : α → Bool) (f : α → α) : List α → List α
  | [] => []
  | x :: xs => if p x then f x :: xs else x :: updateFirst p f xs

/-- Fanout tail of the `message_reaction` handler: group branch unicasts
`message_updated` to each member of the parent message's group; direct branch
is one `io.to(senderId).to(receiverId)` emit to both rooms. -/
def reactionFanout (groupsStore : List Group) (msg : Message) : List SEvent :=
  match msg.groupId with
  | some gid =>
    match groupsStore.find? (fun g => g.id == gid) with
    | some g => g.members.map (fun memberId => SEvent.messageUpdated [some memberId] msg)
    | none => []
  | none => [SEvent.messageUpdated [some msg.senderId, msg.receiverId] msg]

/-- The whole `message_reaction` handler: `findIndex` the message by id —
silently a no-op when absent (`messageIndex === -1`: no write, no event);
otherwise apply the toggle, write the collection back (failure again swallowed
by `writeDatabase`), and fan out the updated message. -/
def reactionHandler (msgsDisk : List Message) (groupsStore : List Group)
    (msgId u e : String) (t : Nat) (fsOk : Bool) :
    List Message × List SEvent :=
  match msgsDisk.find? (fun m => m.id == msgId) with
  | none => (msgsDisk, [])
  | some m0 =>
    let msg := applyReaction m0 u e t
    let messages := updateFirst (fun m => m.id == msgId) (fun m => applyReaction m u e t) msgsDisk
    let _ := writeDatabase (if fsOk then .ok () else .error "EIO")
    let disk := if fsOk then messages else msgsDisk
    (disk, reactionFanout groupsStore msg)

/-! ### Interleaving of two message_reaction read-modify-write cycles

The server awaits `readDatabase` and `writeDatabase` inside each handler, so
two in-flight `message_reaction` handlers interleave at those suspension
points; there is no lock or queue around the cycle.  The machine below runs
two toggle requests against the shared messages collection, each as a read
step (read the collection and compute the modification locally, `none` when
`findIndex` misses so no write will happen) followed by a write step
(replace the whole collection). -/

/-- What one `message_reaction` cycle computes from its snapshot of the
collection: `none` when the message id does not resolve (the handler then
skips the write), otherwise the collection to write back. -/
def rmwCompute (msgs : List Message) (msgId u e : String) (t : Nat) :
    Option (List Message) :=
  match msgs.find? (fun m => m.id == msgId) with
  | none => none
  | some _ => some (updateFirst (fun m => m.id == msgId) (fun m => applyReaction m u e t) msgs)

/-- Two pending reaction toggles on the same message id. -/
structure TwoToggles where
  msgId : String
  u1 : String
  e1 : String
  t1 : Nat
  u2 : String
  e2 : String
  t2 : Nat
  deriving Repr, DecidableEq

/-- Shared state: the on-disk collection plus each handler's pending write
(present once that handler's read step has run). -/
structure RMWState where
  disk : List Message
  pending1 : Option (Option (List Message))
  pending2 : Option (Option (List Message))
  deriving Repr, DecidableEq

inductive RMWStep where
  | read1
  | write1
  | read2
  | write2
  deriving Repr, DecidableEq

/-- One scheduler step: a read snapshots the current disk and computes that
handler's write; a write replaces the disk with the pending collection (a
no-op if the handler found no message or has not read yet). -/
def rmwStep (tt : TwoToggles) (st : RMWState) : RMWStep → RMWState
  | .read1 => { st with pending1 := some (rmwCompute st.disk tt.msgId tt.u1 tt.e1 tt.t1) }
  | .write1 =>
    match st.pending1 with
    | some (some w) => { st with disk := w }
    | _ => st
  | .read2 => { st with pending2 := some (rmwCompute st.disk tt.msgId tt.u2 tt.e2 tt.t2) }
  | .write2 =>
    match st.pending2 with
    | some (some w) => { st with disk := w }
    | _ => st

/-- Run a schedule of the two cycles' steps against an initial collection. -/
def runSchedule (tt : TwoToggles) (init : List Message) (sched : List RMWStep) :
    RMWState :=
  sched.foldl (rmwStep tt) { disk := init, pending1 := none, pending2 := none }

/-! ### Presence: the join and disconnect handlers (part_000 lines 462-481,
581-597) -/

/-- `connectedUsers` is a JS `Map` from user id to (single) socket id;
`Map.set` overwrites an existing key's value, else appends. -/
def mapSet (k v : String) : List (String × String) → List (String × String)
  | [] => [(k, v)]
  | (k', v') :: rest =>
    if k' == k then (k, v) :: rest else (k', v') :: mapSet k v rest

/-- `Map.delete`. -/
def mapDelete (k : String) (m : List (String × String)) : List (String × String) :=
  m.filter (fun p => p.1 != k)

/-- Server-side presence state: the `connectedUsers` map and the users
collection on disk. -/
structure PresenceState where
  connectedUsers : List (String × String)
  users : List UserRec
  deriving Repr, DecidableEq

/-- `users[userIndex].isOnline = b; lastSeen = t` after `findIndex`. -/
def setOnlineFirst (userId : String) (b : Bool) (t : Nat) :
    List UserRec → List UserRec :=
  updateFirst (fun u => u.id == userId) (fun u => { u with isOnline := b, lastSeen := t })

/-- The `isOnline` flag stored for user `u` in the users collection (`none`
when no record with that id exists). -/
def storedOnline (users : List UserRec) (u : String) : Option Bool :=
  (users.find? (fun x => x.id == u)).map (fun x => x.isOnline)

/-- The `join` handler: record the socket in `connectedUsers` (overwriting any
previous socket of the same user), and if the user exists in the users
collection, mark it online and broadcast `user_online`. -/
def joinHandler (st : PresenceState) (userId sockId : String) (t : Nat) :
    PresenceState × List SEvent :=
  let cu := mapSet userId sockId st.connectedUsers
  if st.users.any (fun u => u.id == userId) then
    ({ connectedUsers := cu, users := setOnlineFirst userId true t st.users },
     [SEvent.userOnline userId])
  else
    ({ st with connectedUsers := cu }, [])

/-- The `disconnect` handler: if the socket had joined (`socket.userId` set),
delete the user's `connectedUsers` entry and — whenever the user exists in the
users collection — mark it offline and broadcast `user_offline`.  The handler
never consults whether the user has other live sockets. -/
def disconnectHandler (st : PresenceState) (sockUserId : Option String) (t : Nat) :
    PresenceState × List SEvent :=
  match sockUserId with
  | none => (st, [])
  | some u =>
    let cu := mapDelete u st.connectedUsers
    if st.users.any (fun x => x.id == u) then
      ({ connectedUsers := cu, users := setOnlineFirst u false t st.users },
       [SEvent.userOffline u])
    else
      ({ st with connectedUsers := cu }, [])

/-! ### Client cache reconciler (SocketContext.tsx, ChatRoom.tsx, storage.ts) -/

/-- The `xgram_unread_counts` object in localStorage, keyed by conversation. -/
def getUnreadCount (counts : List (String × Nat)) (convId : String) : Nat :=
  match counts.find? (fun p => p.1 == convId) with
  | some p => p.2
  | none => 0

/-- `unreadCounts[conversationId] = count` (object property assignment). -/
def setUnreadCount (convId : String) (n : Nat) :
    List (String × Nat) → List (String × Nat)
  | [] => [(convId, n)]
  | (k, v) :: rest =>
    if k == convId then (convId, n) :: rest else (k, v) :: setUnreadCount convId n rest

/-- `conversationStorage.incrementUnreadCount`. -/
def incrementUnreadCount (convId : String) (counts : List (String × Nat)) :
    List (String × Nat) :=
  setUnreadCount convId (getUnreadCount counts convId + 1) counts

/-- `conversationStorage.clearUnreadCount`. -/
def clearUnreadCount (convId : String) (counts : List (String × Nat)) :
    List (String × Nat) :=
  setUnreadCount convId 0 counts

/-- Client state relevant to unread tracking: the unread-count map and which
conversation's `ChatRoom` is currently mounted (the active view), if any. -/
structure ClientState where
  unread : List (String × Nat)
  activeChat : Option String
  deriving Repr, DecidableEq

/-- The `receive_message` listener in `SocketContext.tsx` (lines 63-76),
unread-count part: group messages never touch unread counts; a direct message
increments the counter of its conversation whenever the sender is not the
viewing user — the listener never consults the active view. -/
def clientReceiveMessage (me : String) (st : ClientState) (msg : Message) :
    ClientState :=
  match msg.groupId with
  | some _ => st
  | none =>
    let convId := if msg.senderId == me then msg.receiverId.getD "undefined" else msg.senderId
    if msg.senderId != me then
      { st with unread := incrementUnreadCount convId st.unread }
    else
      st

/-- Entering `ChatRoom` for `userId` (the mount effect, lines 21-29): the
conversation becomes the active view and its unread count is cleared. -/
def enterChatRoom (st : ClientState) (userId : String) : ClientState :=
  { unread := clearUnreadCount userId st.unread, activeChat := some userId }

/-- `fetchMessages` reconciliation (ChatRoom.tsx lines 76-97): on a successful
REST response the message view is replaced by the snapshot
(`setMessages(data)`), and the cache is overwritten with it too. -/
def applySnapshot (_view snapshot : List Message) : List Message :=
  snapshot

/-- The `message_updated` listener (ChatRoom.tsx lines 47-49 and
SocketContext.tsx lines 87-99): map over the view replacing the entry with the
pushed message's id by the pushed message; an absent id changes nothing. -/
def applyMessageUpdated (view : List Message) (msg : Message) : List Message :=
  view.map (fun m => if m.id == msg.id then msg else m)

/-- The `receive_message` listener of the mounted `ChatRoom` (lines 37-41):
append the pushed message if it belongs to the open conversation. -/
def chatRoomReceiveMessage (peerId : String) (view : List Message) (msg : Message) :
    List Message :=
  if msg.senderId == peerId || msg.receiverId == some peerId then
    view ++ [msg]
  else
    view

/-- Is `ev` a `receive_message` delivery addressed to user `x`'s room? -/
def isDeliveryTo (x : String) : SEvent → Bool
  | .receiveMessage (some y) _ => y == x
  | _ => false

/-! ### Connection-level wrapper around the presence handlers

To talk about a user's *other* live connections, the system state pairs the
server's presence state with the list of currently open sockets and each
socket's `socket.userId` field (assigned by the `join` handler). -/

/-- One open socket.io connection: its id and its `socket.userId` field
(`none` until the client emits `join`). -/
structure SocketConn where
  sockId : String
  userId : Option String
  deriving Repr, DecidableEq

/-- The server process together with its open connections. -/
structure SystemState where
  server : PresenceState
  openSockets : List SocketConn
  deriving Repr, DecidableEq

/-- A new connection is accepted (the `io.on connection` callback): the socket
is open with no user yet. -/
def sysConnect (sys : SystemState) (sockId : String) : SystemState :=
  { sys with openSockets := sys.openSockets ++ [⟨sockId, none⟩] }

/-- A `join` event on socket `sockId`: the handler stores `userId` on the
socket and runs the presence join logic. -/
def sysJoin (sys : SystemState) (sockId userId : String) (t : Nat) :
    SystemState × List SEvent :=
  let (server, evs) := joinHandler sys.server userId sockId t
  ({ server := server
     openSockets := sys.openSockets.map
       (fun s => if s.sockId == sockId then { s with userId := some userId } else s) },
   evs)

/-- A socket closes: it is removed from the open set and the `disconnect`
handler runs with that socket's `userId` field. -/
def sysDisconnect (sys : SystemState) (sockId : String) (t : Nat) :
    SystemState × List SEvent :=
  match sys.openSockets.find? (fun s => s.sockId == sockId) with
  | none => (sys, [])
  | some s =>
    let (server, evs) := disconnectHandler sys.server s.userId t
    ({ server := server
       openSockets := sys.openSockets.filter (fun x => x.sockId != sockId) },
     evs)

/-! ### Helper lemmas -/

theorem find?_eq_head?_filter (p : α → Bool) (l : List α) :
    l.find? p = (l.filter p).head? := by
  induction l with
  | nil => rfl
  | cons a l ih =>
    cases h : p a with
    | true =>
      rw [List.find?_cons_of_pos _ h, List.filter_cons_of_pos (by simp [h])]
      rfl
    | false =>
      rw [List.find?_cons_of_neg _ (by simp [h]), List.filter_cons_of_neg (by simp [h])]
      exact ih

theorem find?_updateFirst (p : α → Bool) (f : α → α) (l : List α)
    (hf : ∀ x, p x = true → p (f x) = true) :
    (updateFirst p f l).find? p = (l.find? p).map f := by
  induction l with
  | nil => rfl
  | cons a l ih =>
    cases h : p a with
    | true => simp [updateFirst, h, List.find?_cons, hf a h]
    | false => simp [updateFirst, h, List.find?_cons, ih]

theorem updateFirst_updateFirst (p : α → Bool) (f g : α → α) (l : List α)
    (hf : ∀ x, p x = true → p (f x) = true) :
    updateFirst p g (updateFirst p f l) = updateFirst p (fun x => g (f x)) l := by
  induction l with
  | nil => rfl
  | cons a l ih =>
    cases h : p a with
    | true => simp [updateFirst, h, hf a h]
    | false => simp [updateFirst, h, ih]

theorem applyReaction_id (m : Message) (u e : String) (t : Nat) :
    (applyReaction m u e t).id = m.id := by
  unfold applyReaction
  cases m.reactions.find? (fun r => r.userId == u) with
  | none => rfl
  | some r => cases h : (r.emoji == e) <;> simp [h]

theorem setEmojiFirst_map_userId (u e : String) (l : List Reaction) :
    (setEmojiFirst u e l).map (fun r => r.userId) = l.map (fun r => r.userId) := by
  induction l with
  | nil => rfl
  | cons a l ih =>
    cases h : (a.userId == u) <;> simp [setEmojiFirst, h, ih]

theorem userEmojis_eq_nil_iff (u : String) (m : Message) :
    userEmojis u m = [] ↔ m.reactions.filter (fun r => r.userId == u) = [] := by
  simp [userEmojis]

theorem find?_userId_of_emojis_nil (u : String) (m : Message)
    (h : userEmojis u m = []) :
    m.reactions.find? (fun r => r.userId == u) = none := by
  rw [find?_eq_head?_filter, (userEmojis_eq_nil_iff u m).mp h]
  rfl

theorem filter_of_emojis_single (u g : String) (m : Message)
    (h : userEmojis u m = [g]) :
    ∃ r, m.reactions.filter (fun s => s.userId == u) = [r] ∧
      r.emoji = g ∧ r.userId = u ∧
      m.reactions.find? (fun s => s.userId == u) = some r := by
  unfold userEmojis at h
  rcases List.map_eq_cons_iff.mp h with ⟨r, rs, hfil, hemoji, hrs⟩
  rcases List.map_eq_nil_iff.mp hrs with rfl
  refine ⟨r, hfil, hemoji, ?_, ?_⟩
  · have : r ∈ m.reactions.filter (fun s => s.userId == u) := by
      rw [hfil]; exact List.mem_singleton_self r
    have := List.of_mem_filter this
    exact eq_of_beq this
  · rw [find?_eq_head?_filter, hfil]; rfl

theorem setEmojiFirst_filter_single (u e : String) (l : List Reaction) (r : Reaction)
    (h : l.filter (fun s => s.userId == u) = [r]) :
    (setEmojiFirst u e l).filter (fun s => s.userId == u) = [{ r with emoji := e }] := by
  induction l with
  | nil => simp at h
  | cons a l ih =>
    cases ha : (a.userId == u) with
    | true =>
      rw [List.filter_cons] at h
      simp only [ha, if_true] at h
      obtain ⟨rfl, hnil⟩ := List.cons_eq_cons.mp h
      simp [setEmojiFirst, ha, List.filter_cons, hnil]
    | false =>
      rw [List.filter_cons] at h
      simp only [ha, if_false, Bool.false_eq_true] at h
      simp [setEmojiFirst, ha, List.filter_cons, ih h]

theorem countP_beq_of_nodup (l : List String) (hnd : l.Nodup) (x : String) :
    l.countP (fun y => y == x) = if x ∈ l then 1 else 0 := by
  induction l with
  | nil => simp
  | cons a l ih =>
    rcases List.nodup_cons.mp hnd with ⟨ha, hl⟩
    by_cases hax : a = x
    · subst hax
      have : l.countP (fun y => y == a) = 0 := by
        rw [List.countP_eq_zero]
        intro b hb
        simp only [beq_iff_eq]
        intro hba
        exact ha (hba ▸ hb)
      simp [List.countP_cons, this]
    · have hax' : (a == x) = false := by simp [hax]
      have hxa : ¬ x = a := fun hh => hax hh.symm
      simp [List.countP_cons, hax', ih hl, List.mem_cons, hxa]

theorem storedOnline_setOnlineFirst (u : String) (b : Bool) (t : Nat)
    (users : List UserRec) (h : users.any (fun x => x.id == u) = true) :
    storedOnline (setOnlineFirst u b t users) u = some b := by
  unfold storedOnline setOnlineFirst
  rw [find?_updateFirst (fun x => x.id == u)
    (fun v => { v with isOnline := b, lastSeen := t }) users (fun x hx => hx)]
  have hs : (users.find? (fun x => x.id == u)).isSome := by
    rw [List.find?_isSome]
    obtain ⟨x, hx, hpx⟩ := List.any_eq_true.mp h
    exact ⟨x, hx, hpx⟩
  obtain ⟨y, hy⟩ := Option.isSome_iff_exists.mp hs
  rw [hy]
  rfl

theorem getUnreadCount_setUnreadCount (k : String) (n : Nat)
    (m : List (String × Nat)) :
    getUnreadCount (setUnreadCount k n m) k = n := by
  induction m with
  | nil => simp [setUnreadCount, getUnreadCount, List.find?_cons]
  | cons a m ih =>
    obtain ⟨a1, a2⟩ := a
    cases ha : (a1 == k) with
    | true => simp [setUnreadCount, ha, getUnreadCount, List.find?_cons]
    | false =>
      simp only [setUnreadCount, ha, Bool.false_eq_true, if_false]
      simp only [getUnreadCount, List.find?_cons] at ih ⊢
      simpa [ha] using ih

theorem applyReaction_of_nil (m : Message) (u e : String) (t : Nat)
    (h : userEmojis u m = []) :
    applyReaction m u e t =
      { m with reactions := m.reactions ++ [⟨u, e, t⟩], updatedAt := t } := by
  unfold applyReaction
  rw [find?_userId_of_emojis_nil u m h]

theorem applyReaction_of_same (m : Message) (u e : String) (t : Nat)
    (h : userEmojis u m = [e]) :
    applyReaction m u e t =
      { m with reactions := m.reactions.filter (fun s => s.userId != u),
               updatedAt := t } := by
  obtain ⟨r, hfil, hemoji, huid, hfind⟩ := filter_of_emojis_single u e m h
  unfold applyReaction
  rw [hfind]
  simp [hemoji]

theorem applyReaction_of_diff (m : Message) (u e g : String) (t : Nat)
    (h : userEmojis u m = [g]) (hne : g ≠ e) :
    applyReaction m u e t =
      { m with reactions := setEmojiFirst u e m.reactions, updatedAt := t } := by
  obtain ⟨r, hfil, hemoji, huid, hfind⟩ := filter_of_emojis_single u g m h
  unfold applyReaction
  rw [hfind]
  have he : (r.emoji == e) = false := by simp [hemoji, hne]
  simp [he]

theorem userEmojis_after_append_self (u e : String) (t : Nat) (m : Message)
    (h : userEmojis u m = []) :
    userEmojis u { m with reactions := m.reactions ++ [⟨u, e, t⟩],
                          updatedAt := t } = [e] := by
  have hfil := (userEmojis_eq_nil_iff u m).mp h
  simp [userEmojis, List.filter_append, hfil]

theorem userEmojis_filter_ne (u : String) (m : Message) (t : Nat) :
    userEmojis u { m with reactions := m.reactions.filter (fun s => s.userId != u),
                          updatedAt := t } = [] := by
  simp only [userEmojis, List.filter_filter]
  have : ∀ r : Reaction, ((r.userId == u) && (r.userId != u)) = false := by
    intro r; cases hr : (r.userId == u) <;> simp [bne, hr]
  simp [this]

theorem userEmojis_length_le_one (u : String) (m : Message)
    (hm : atMostOnePerUser m) :
    userEmojis u m = [] ∨ ∃ g, userEmojis u m = [g] := by
  have hlen : (userEmojis u m).length ≤ 1 := by
    have := hm u
    rw [List.countP_eq_length_filter] at this
    simpa [userEmojis] using this
  match hu : userEmojis u m with
  | [] => exact Or.inl rfl
  | [g] => exact Or.inr ⟨g, rfl⟩
  | g :: g' :: rest => rw [hu] at hlen; simp at hlen

theorem countP_userId_setEmojiFirst (u e v : String) (l : List Reaction) :
    (setEmojiFirst u e l).countP (fun r => r.userId == v) =
      l.countP (fun r => r.userId == v) := by
  have h1 : ∀ l' : List Reaction, l'.countP (fun r => r.userId == v)
      = (l'.map (fun r => r.userId)).countP (fun s => s == v) := by
    intro l'
    rw [List.countP_map]
    rfl
  rw [h1, h1, setEmojiFirst_map_userId]

/-! ### Claim theorems -/

/-- C3: the reaction toggle is the three-case function of the spec: a user
with no reaction on the message gets a new entry appended; a user whose
existing reaction has the requested emoji has it removed; a user whose
existing reaction has a different emoji has that entry's emoji replaced in
place, with no duplicate entry appended (the multiset of reacting users is
unchanged). -/
theorem reaction_toggle_three_cases (m : Message) (u e : String) (t : Nat) :
    (userEmojis u m = [] →
      (applyReaction m u e t).reactions = m.reactions ++ [⟨u, e, t⟩]) ∧
    (userEmojis u m = [e] →
      (applyReaction m u e t).reactions = m.reactions.filter (fun s => s.userId != u) ∧
      userEmojis u (applyReaction m u e t) = []) ∧
    (∀ g, userEmojis u m = [g] → g ≠ e →
      (applyReaction m u e t).reactions = setEmojiFirst u e m.reactions ∧
      userEmojis u (applyReaction m u e t) = [e] ∧
      (applyReaction m u e t).reactions.map (fun s => s.userId) =
        m.reactions.map (fun s => s.userId)) := by
  refine ⟨fun h => ?_, fun h => ?_, fun g h hg => ?_⟩
  · rw [applyReaction_of_nil m u e t h]
  · rw [applyReaction_of_same m u e t h]
    exact ⟨rfl, userEmojis_filter_ne u m t⟩
  · rw [applyReaction_of_diff m u e g t h hg]
    refine ⟨rfl, ?_, setEmojiFirst_map_userId u e m.reactions⟩
    obtain ⟨r, hfil, _, _, _⟩ := filter_of_emojis_single u g m h
    simp [userEmojis, setEmojiFirst_filter_single u e m.reactions r hfil]

/-- Witness for C3: a concrete replace-toggle (user C reacted "x", requests
"y": the entry is replaced in place and C ends with exactly "y"). -/
theorem reaction_toggle_three_cases_witness :
    userEmojis "C" (applyReaction
        ⟨"m1", "A", some "B", none, "hi", "text", 0, 0, [⟨"C", "x", 0⟩], false⟩
        "C" "y" 5) = ["y"] ∧
    (applyReaction
        ⟨"m1", "A", some "B", none, "hi", "text", 0, 0, [⟨"C", "x", 0⟩], false⟩
        "C" "y" 5).reactions.map (fun s => s.userId) = ["C"] := by
  have h := (reaction_toggle_three_cases
      ⟨"m1", "A", some "B", none, "hi", "text", 0, 0, [⟨"C", "x", 0⟩], false⟩
      "C" "y" 5).2.2 "x" (by decide) (by decide)
  exact ⟨h.2.1, by rw [h.2.2]; rfl⟩

/-- C9: every message starts with an empty reaction list (the `send_message`
message literal) and the reaction toggle preserves the at-most-one-reaction-
per-user invariant: it never appends a duplicate entry for a user. -/
theorem at_most_one_reaction_invariant (d : SendData) (newId : String) (t0 : Nat)
    (m : Message) (u e : String) (t : Nat) (hm : atMostOnePerUser m) :
    (mkMessage newId t0 d).reactions = [] ∧
    atMostOnePerUser (applyReaction m u e t) := by
  refine ⟨rfl, ?_⟩
  intro v
  rcases userEmojis_length_le_one u m hm with h | ⟨g, h⟩
  · rw [applyReaction_of_nil m u e t h]
    simp only [List.countP_append]
    by_cases hv : u = v
    · subst hv
      have h0 : m.reactions.countP (fun r => r.userId == u) = 0 := by
        rw [List.countP_eq_length_filter, (userEmojis_eq_nil_iff u m).mp h]
        rfl
      simp [h0, List.countP_cons]
    · have hv' : ((⟨u, e, t⟩ : Reaction).userId == v) = false := by simp [hv]
      simpa [List.countP_cons, hv'] using hm v
  · by_cases hg : g = e
    · subst hg
      rw [applyReaction_of_same m u g t h]
      calc (m.reactions.filter (fun s => s.userId != u)).countP (fun r => r.userId == v)
          ≤ m.reactions.countP (fun r => r.userId == v) := by
            rw [List.countP_filter]
            exact List.countP_mono_left (fun a _ hpa => by
              simp only [Bool.and_eq_true] at hpa
              exact hpa.1)
        _ ≤ 1 := hm v
    · rw [applyReaction_of_diff m u e g t h hg]
      simpa [countP_userId_setEmojiFirst] using hm v

/-- Witness for C9 at a concrete message that already carries one reaction. -/
theorem at_most_one_reaction_invariant_witness :
    (mkMessage "m2" 7 ⟨"A", some "B", none, "yo", none⟩).reactions = [] ∧
    atMostOnePerUser (applyReaction
      ⟨"m1", "A", some "B", none, "hi", "text", 0, 0, [⟨"C", "x", 0⟩], false⟩
      "C" "x" 9) := by
  refine at_most_one_reaction_invariant ⟨"A", some "B", none, "yo", none⟩ "m2" 7
    ⟨"m1", "A", some "B", none, "hi", "text", 0, 0, [⟨"C", "x", 0⟩], false⟩
    "C" "x" 9 ?_
  intro v
  by_cases hv : "C" = v <;> simp [List.countP_cons, hv]

/-- C10 (amended): the double toggle with the same user and emoji restores the
user's reaction set provided the user's prior reaction, if any, already had
that emoji (no prior reaction, or a prior reaction with emoji `e`).  When the
prior reaction has a different emoji the double toggle clears it instead — see
the counterexample. -/
theorem double_toggle_restores (m : Message) (u e : String) (t1 t2 : Nat)
    (hcase : userEmojis u m = [] ∨ userEmojis u m = [e]) :
    userEmojis u (applyReaction (applyReaction m u e t1) u e t2) = userEmojis u m := by
  rcases hcase with h | h
  · rw [applyReaction_of_nil m u e t1 h]
    rw [applyReaction_of_same _ u e t2 (userEmojis_after_append_self u e t1 m h)]
    rw [userEmojis_filter_ne, h]
  · rw [applyReaction_of_same m u e t1 h]
    have h1 := userEmojis_filter_ne u m t1
    rw [applyReaction_of_nil _ u e t2 h1]
    rw [userEmojis_after_append_self u e t2 _ h1, h]

/-- Witness for C10: toggling "y" twice for user C, starting from no reaction
by C, leaves C with no reaction again. -/
theorem double_toggle_restores_witness :
    userEmojis "C" (applyReaction (applyReaction
        ⟨"m1", "A", some "B", none, "hi", "text", 0, 0, [], false⟩
        "C" "y" 1) "C" "y" 2)
      = userEmojis "C" ⟨"m1", "A", some "B", none, "hi", "text", 0, 0, [], false⟩ :=
  double_toggle_restores
    ⟨"m1", "A", some "B", none, "hi", "text", 0, 0, [], false⟩
    "C" "y" 1 2 (Or.inl (by decide))

/-- Counterexample for C10 as stated: user C's existing reaction is "x"; after
applying the toggle twice with emoji "y", C's reaction set is empty rather
than restored to "x" (the first toggle replaces "x" by "y", the second removes
it). -/
theorem double_toggle_not_identity :
    userEmojis "C" (applyReaction (applyReaction
        ⟨"m1", "A", some "B", none, "hi", "text", 0, 0, [⟨"C", "x", 0⟩], false⟩
        "C" "y" 1) "C" "y" 2) = [] ∧
    userEmojis "C"
        ⟨"m1", "A", some "B", none, "hi", "text", 0, 0, [⟨"C", "x", 0⟩], false⟩
      = ["x"] := by
  decide

/-- C1 (amended): a failing underlying write is caught and logged inside
`writeDatabase`, so the handlers observe success: they emit exactly the same
events — fanout included, and never a `message_error`/`reaction_error` —
whether or not the write reached disk; only the persisted collection
differs. -/
theorem write_failure_swallowed (msgsDisk : List Message) (gs : List Group)
    (d : SendData) (newId : String) (t : Nat) (msgId u e : String) (fsOk : Bool) :
    writeDatabase (.error "EIO") = .ok () ∧
    (sendMessageHandler msgsDisk gs d newId t fsOk).2 =
      (sendMessageHandler msgsDisk gs d newId t true).2 ∧
    (reactionHandler msgsDisk gs msgId u e t fsOk).2 =
      (reactionHandler msgsDisk gs msgId u e t true).2 := by
  refine ⟨rfl, rfl, ?_⟩
  unfold reactionHandler
  cases msgsDisk.find? (fun m => m.id == msgId) <;> rfl

/-- Counterexample for C1 as stated: a direct send whose underlying write
fails (`fsOk = false`) leaves the messages collection unpersisted, yet the
handler still fans the message out to the receiver and emits no
`message_error` to the sender. -/
theorem write_failure_fanout_counterexample :
    (sendMessageHandler [] [] ⟨"A", some "B", none, "hi", none⟩ "m1" 0 false).1 = [] ∧
    (sendMessageHandler [] [] ⟨"A", some "B", none, "hi", none⟩ "m1" 0 false).2 =
      [SEvent.receiveMessage (some "B") (mkMessage "m1" 0 ⟨"A", some "B", none, "hi", none⟩),
       SEvent.messageSent (mkMessage "m1" 0 ⟨"A", some "B", none, "hi", none⟩)] := by
  decide

/-- C6 (amended): a `message_reaction` whose message id does not resolve is
silently dropped — no error event, no write, no fanout; a `send_message` is
persisted without validating its target, and when its group id does not
resolve the handler emits nothing at all (no error, no fanout) while the
message stays in the store. -/
theorem notfound_silent_and_unvalidated_persist (msgs : List Message)
    (gs : List Group) (msgId u e : String) (t : Nat) (fsOk : Bool)
    (d : SendData) (newId : String) (gid : String)
    (hmid : msgs.find? (fun m => m.id == msgId) = none)
    (hgid : d.groupId = some gid)
    (hg : gs.find? (fun g => g.id == gid) = none) :
    reactionHandler msgs gs msgId u e t fsOk = (msgs, []) ∧
    sendMessageHandler msgs gs d newId t true = (msgs ++ [mkMessage newId t d], []) := by
  constructor
  · unfold reactionHandler
    rw [hmid]
  · simp [sendMessageHandler, sendMessageFanout, hgid, hg]

/-- Witness for C6 (amended) at concrete stores. -/
theorem notfound_silent_witness :
    reactionHandler [] [] "missing" "A" "x" 0 true = ([], []) ∧
    sendMessageHandler [] [] ⟨"A", none, some "g9", "hi", none⟩ "m1" 0 true =
      ([mkMessage "m1" 0 ⟨"A", none, some "g9", "hi", none⟩], []) := by
  have h := notfound_silent_and_unvalidated_persist [] [] "missing" "A" "x" 0 true
    ⟨"A", none, some "g9", "hi", none⟩ "m1" "g9" (by decide) (by decide) (by decide)
  simpa using h

/-- Counterexample for C6 as stated: reacting to an id absent from the store
produces no typed error event at all (the claim requires one), and a send
referencing an absent group id persists the message (the claim requires that
nothing be persisted). -/
theorem notfound_counterexample :
    reactionHandler [] [] "missing" "A" "x" 0 true = ([], []) ∧
    (sendMessageHandler [] [] ⟨"A", none, some "g9", "hi", none⟩ "m1" 0 true).1 =
      [mkMessage "m1" 0 ⟨"A", none, some "g9", "hi", none⟩] ∧
    (sendMessageHandler [] [] ⟨"A", none, some "g9", "hi", none⟩ "m1" 0 true).2 = [] := by
  decide

/-- C4: a group send fans out by unicast over the member set read from the
groups collection at delivery time: every member (the sender's echo included)
receives exactly one `receive_message` carrying the new message, nobody else
receives one, and the event list is a pure function of the member set — no
member's delivery depends on any other member being reachable. -/
theorem group_fanout_exactly_once (msgs : List Message) (gs : List Group)
    (d : SendData) (newId : String) (t : Nat) (fsOk : Bool) (gid : String)
    (g : Group)
    (hgid : d.groupId = some gid)
    (hg : gs.find? (fun x => x.id == gid) = some g)
    (hnd : g.members.Nodup) :
    (∀ x : String,
      ((sendMessageHandler msgs gs d newId t fsOk).2.countP (isDeliveryTo x))
        = if x ∈ g.members then 1 else 0) ∧
    (∀ ev ∈ (sendMessageHandler msgs gs d newId t fsOk).2,
      ∃ memberId ∈ g.members,
        ev = SEvent.receiveMessage (some memberId) (mkMessage newId t d)) := by
  have hev : (sendMessageHandler msgs gs d newId t fsOk).2
      = g.members.map
          (fun memberId => SEvent.receiveMessage (some memberId) (mkMessage newId t d)) := by
    simp [sendMessageHandler, sendMessageFanout, hgid, hg]
  constructor
  · intro x
    rw [hev, List.countP_map]
    have hcomp : ((isDeliveryTo x) ∘
        (fun memberId => SEvent.receiveMessage (some memberId) (mkMessage newId t d)))
        = fun y => y == x := rfl
    rw [hcomp, countP_beq_of_nodup g.members hnd x]
  · intro ev hmem
    rw [hev] at hmem
    obtain ⟨memberId, hm, rfl⟩ := List.mem_map.mp hmem
    exact ⟨memberId, hm, rfl⟩

/-- Witness for C4: group {A, B, C}, send by A — exactly one delivery at B,
none at an outsider Z. -/
theorem group_fanout_exactly_once_witness :
    ((sendMessageHandler [] [⟨"g1", "team", ["A", "B", "C"], "A"⟩]
        ⟨"A", none, some "g1", "hi", none⟩ "m1" 0 true).2.countP (isDeliveryTo "B")) = 1 ∧
    ((sendMessageHandler [] [⟨"g1", "team", ["A", "B", "C"], "A"⟩]
        ⟨"A", none, some "g1", "hi", none⟩ "m1" 0 true).2.countP (isDeliveryTo "Z")) = 0 := by
  have h := (group_fanout_exactly_once [] [⟨"g1", "team", ["A", "B", "C"], "A"⟩]
    ⟨"A", none, some "g1", "hi", none⟩ "m1" 0 true "g1"
    ⟨"g1", "team", ["A", "B", "C"], "A"⟩ rfl (by decide) (by decide)).1
  constructor
  · rw [h "B"]
    decide
  · rw [h "Z"]
    decide

/-- C5 (amended): `user_offline` is broadcast on *every* close of a joined
connection whose user exists in the users collection — the handler never
checks for other live connections of the same user.  Each such close emits
exactly one `user_offline` and stores `isOnline = false`; the next `join`
emits `user_online` and stores `isOnline = true`. -/
theorem disconnect_broadcasts_offline (st : PresenceState) (u sockId : String)
    (t t' : Nat) (hu : st.users.any (fun x => x.id == u) = true) :
    (disconnectHandler st (some u) t).2 = [SEvent.userOffline u] ∧
    storedOnline (disconnectHandler st (some u) t).1.users u = some false ∧
    (joinHandler st u sockId t').2 = [SEvent.userOnline u] ∧
    storedOnline (joinHandler st u sockId t').1.users u = some true := by
  have hoff := storedOnline_setOnlineFirst u false t st.users hu
  have hon := storedOnline_setOnlineFirst u true t' st.users hu
  refine ⟨?_, ?_, ?_, ?_⟩ <;>
    simp [disconnectHandler, joinHandler, hu, hoff, hon]

/-- Witness for C5 (amended) at a concrete state. -/
theorem disconnect_broadcasts_offline_witness :
    (disconnectHandler
        { connectedUsers := [("U", "c1")], users := [⟨"U", true, 0⟩] }
        (some "U") 5).2 = [SEvent.userOffline "U"] ∧
    storedOnline (disconnectHandler
        { connectedUsers := [("U", "c1")], users := [⟨"U", true, 0⟩] }
        (some "U") 5).1.users "U" = some false := by
  have h := disconnect_broadcasts_offline
    { connectedUsers := [("U", "c1")], users := [⟨"U", true, 0⟩] }
    "U" "c9" 5 6 (by decide)
  exact ⟨h.1, h.2.1⟩

/-- Counterexample for C5 as stated: sockets c1 and c2 both connect and join
as user U; closing c1 — a non-last connection, since c2 is still open and
joined as U — still broadcasts `user_offline U` and stores
`isOnline = false`. -/
theorem nonlast_disconnect_broadcasts :
    (let sys0 : SystemState :=
      { server := { connectedUsers := [], users := [⟨"U", false, 0⟩] }
        openSockets := [] }
     let sys1 := (sysJoin (sysConnect sys0 "c1") "c1" "U" 1).1
     let sys2 := (sysJoin (sysConnect sys1 "c2") "c2" "U" 2).1
     (sysDisconnect sys2 "c1" 3).2 = [SEvent.userOffline "U"] ∧
     (sysDisconnect sys2 "c1" 3).1.openSockets = [⟨"c2", some "U"⟩] ∧
     (sysDisconnect sys2 "c1" 3).1.server.users = [⟨"U", false, 3⟩]) := by
  decide

/-- Counterexample for C2 as stated: the code wraps no serialization around
the read-modify-write cycle, and in the interleaving where both
`message_reaction` handlers read before either writes (`read1, read2,
write1, write2`), user A's toggle is lost: the final persisted reaction set
contains only B's reaction. -/
theorem interleaved_toggles_lost_update :
    ((runSchedule ⟨"m1", "A", "x", 1, "B", "y", 2⟩
        [⟨"m1", "A", some "B", none, "hi", "text", 0, 0, [], false⟩]
        [.read1, .read2, .write1, .write2]).disk.map
      (fun m => m.reactions.map (fun r => r.userId))) = [["B"]] := by
  decide

/-- C2 (amended): the handlers provide no per-collection serialization (see
the interleaved counterexample); when the two toggles' read-modify-write
cycles happen to run serially — the first cycle's write completing before the
second cycle's read — both users' reactions persist in the final collection. -/
theorem serial_toggles_both_persist (tt : TwoToggles) (init : List Message)
    (m0 : Message)
    (hfind : init.find? (fun m => m.id == tt.msgId) = some m0)
    (h1 : userEmojis tt.u1 m0 = [])
    (h2 : userEmojis tt.u2 m0 = [])
    (hne : tt.u1 ≠ tt.u2) :
    ∃ mfin,
      (runSchedule tt init [.read1, .write1, .read2, .write2]).disk.find?
          (fun m => m.id == tt.msgId) = some mfin ∧
      userEmojis tt.u1 mfin = [tt.e1] ∧
      userEmojis tt.u2 mfin = [tt.e2] := by
  have hp1 : ∀ x : Message, (x.id == tt.msgId) = true →
      ((applyReaction x tt.u1 tt.e1 tt.t1).id == tt.msgId) = true := by
    intro x hx
    rw [applyReaction_id]
    exact hx
  have hp12 : ∀ x : Message, (x.id == tt.msgId) = true →
      ((applyReaction (applyReaction x tt.u1 tt.e1 tt.t1) tt.u2 tt.e2 tt.t2).id
        == tt.msgId) = true := by
    intro x hx
    rw [applyReaction_id, applyReaction_id]
    exact hx
  have hW1find : (updateFirst (fun m => m.id == tt.msgId)
      (fun m => applyReaction m tt.u1 tt.e1 tt.t1) init).find?
        (fun m => m.id == tt.msgId)
      = some (applyReaction m0 tt.u1 tt.e1 tt.t1) := by
    rw [find?_updateFirst _ _ _ hp1, hfind]
    rfl
  have hrun : (runSchedule tt init [.read1, .write1, .read2, .write2]).disk
      = updateFirst (fun m => m.id == tt.msgId)
          (fun m => applyReaction (applyReaction m tt.u1 tt.e1 tt.t1) tt.u2 tt.e2 tt.t2)
          init := by
    simp only [runSchedule, List.foldl, rmwStep, rmwCompute, hfind, hW1find]
    exact updateFirst_updateFirst _ _ _ _ hp1
  have hmid : applyReaction m0 tt.u1 tt.e1 tt.t1
      = { m0 with reactions := m0.reactions ++ [⟨tt.u1, tt.e1, tt.t1⟩],
                  updatedAt := tt.t1 } :=
    applyReaction_of_nil m0 tt.u1 tt.e1 tt.t1 h1
  have hne21 : (tt.u1 == tt.u2) = false := by simp [hne]
  have hne12 : (tt.u2 == tt.u1) = false := by simp [Ne.symm hne]
  have hfR1 : m0.reactions.filter (fun r => r.userId == tt.u1) = [] :=
    (userEmojis_eq_nil_iff _ m0).mp h1
  have hfR2 : m0.reactions.filter (fun r => r.userId == tt.u2) = [] :=
    (userEmojis_eq_nil_iff _ m0).mp h2
  have hmid2 : userEmojis tt.u2 (applyReaction m0 tt.u1 tt.e1 tt.t1) = [] := by
    rw [hmid]
    simp [userEmojis, List.filter_append, hfR2, hne21]
  have hfin : applyReaction (applyReaction m0 tt.u1 tt.e1 tt.t1) tt.u2 tt.e2 tt.t2
      = { m0 with reactions := (m0.reactions ++ [⟨tt.u1, tt.e1, tt.t1⟩])
                    ++ [⟨tt.u2, tt.e2, tt.t2⟩],
                  updatedAt := tt.t2 } := by
    rw [applyReaction_of_nil _ tt.u2 tt.e2 tt.t2 hmid2, hmid]
  refine ⟨applyReaction (applyReaction m0 tt.u1 tt.e1 tt.t1) tt.u2 tt.e2 tt.t2,
    ?_, ?_, ?_⟩
  · rw [hrun, find?_updateFirst _ _ _ hp12, hfind]
    rfl
  · rw [hfin]
    simp [userEmojis, List.filter_append, hfR1, hne12]
  · rw [hfin]
    simp [userEmojis, List.filter_append, hfR2, hne21]

/-- Witness for C2 (amended): a serial run of toggles by A then B leaves the
message with both reactions. -/
theorem serial_toggles_both_persist_witness :
    ∃ mfin,
      (runSchedule ⟨"m1", "A", "x", 1, "B", "y", 2⟩
          [⟨"m1", "A", some "B", none, "hi", "text", 0, 0, [], false⟩]
          [.read1, .write1, .read2, .write2]).disk.find?
        (fun m => m.id == "m1") = some mfin ∧
      userEmojis "A" mfin = ["x"] ∧
      userEmojis "B" mfin = ["y"] :=
  serial_toggles_both_persist ⟨"m1", "A", "x", 1, "B", "y", 2⟩
    [⟨"m1", "A", some "B", none, "hi", "text", 0, 0, [], false⟩]
    ⟨"m1", "A", some "B", none, "hi", "text", 0, 0, [], false⟩
    (by decide) (by decide) (by decide) (by decide)

/-- C7 (amended): the client increments the per-conversation unread counter
for every incoming direct message whose sender is not the viewing user —
regardless of whether that conversation is the active view, which the socket
listener never consults; the viewing user's own messages and group messages
change no counter; entering a conversation's ChatRoom makes it the active
view and clears its counter to zero. -/
theorem unread_count_rules (me : String) (st : ClientState) (msg : Message)
    (c : String) (hdirect : msg.groupId = none) (hsender : msg.senderId ≠ me) :
    getUnreadCount (clientReceiveMessage me st msg).unread msg.senderId
      = getUnreadCount st.unread msg.senderId + 1 ∧
    (clientReceiveMessage me st msg).activeChat = st.activeChat ∧
    (∀ msg' : Message, msg'.groupId = none → msg'.senderId = me →
      clientReceiveMessage me st msg' = st) ∧
    getUnreadCount (enterChatRoom st c).unread c = 0 ∧
    (enterChatRoom st c).activeChat = some c := by
  have hs : (msg.senderId == me) = false := by simp [hsender]
  refine ⟨?_, ?_, ?_, ?_, rfl⟩
  · simp [clientReceiveMessage, hdirect, hs, hsender, incrementUnreadCount,
      getUnreadCount_setUnreadCount]
  · simp [clientReceiveMessage, hdirect, hs, hsender]
  · intro msg' hd' hs'
    simp [clientReceiveMessage, hd', hs']
  · exact getUnreadCount_setUnreadCount c 0 st.unread

/-- Witness for C7 (amended) at a concrete client state. -/
theorem unread_count_rules_witness :
    getUnreadCount (clientReceiveMessage "A"
        { unread := [("B", 4)], activeChat := none }
        ⟨"m1", "B", some "A", none, "hi", "text", 0, 0, [], false⟩).unread "B" = 5 ∧
    getUnreadCount (enterChatRoom
        { unread := [("B", 4)], activeChat := none } "B").unread "B" = 0 := by
  have h := unread_count_rules "A" { unread := [("B", 4)], activeChat := none }
    ⟨"m1", "B", some "A", none, "hi", "text", 0, 0, [], false⟩ "B"
    (by decide) (by decide)
  refine ⟨?_, h.2.2.2.1⟩
  rw [h.1]
  decide

/-- Counterexample for C7 as stated: conversation B *is* the active view
(`activeChat = some B`), yet an incoming message from B still increments B's
unread counter from 0 to 1 — the claim allows the increment only while the
conversation is not the active view. -/
theorem unread_incremented_in_active_view :
    (clientReceiveMessage "A"
        { unread := [("B", 0)], activeChat := some "B" }
        ⟨"m1", "B", some "A", none, "hi", "text", 0, 0, [], false⟩).unread
      = [("B", 1)] ∧
    ({ unread := [("B", 0)], activeChat := some "B" } : ClientState).activeChat
      = some "B" := by
  decide

/-- C8 (amended): the authoritative REST snapshot *replaces* the cached
conversation view (`setMessages(data)`) rather than union-merging with it;
the in-place half of the claim does hold: a `message_updated` push whose id
is already present rewrites that entry in place — the id sequence and length
of the view are unchanged, and the pushed message appears instead of the old
entry, so no duplicate is created. -/
theorem snapshot_replaces_update_in_place (view snap : List Message)
    (msg : Message) (h : msg.id ∈ view.map (fun m => m.id)) :
    applySnapshot view snap = snap ∧
    (applyMessageUpdated view msg).map (fun m => m.id) = view.map (fun m => m.id) ∧
    msg ∈ applyMessageUpdated view msg ∧
    (applyMessageUpdated view msg).length = view.length := by
  refine ⟨rfl, ?_, ?_, by simp [applyMessageUpdated]⟩
  · unfold applyMessageUpdated
    rw [List.map_map]
    refine List.map_congr_left (fun a _ => ?_)
    show (if a.id == msg.id then msg else a).id = a.id
    by_cases hc : (a.id == msg.id) = true
    · rw [if_pos hc]
      exact (eq_of_beq hc).symm
    · rw [if_neg hc]
  · obtain ⟨a, ha, hid⟩ := List.mem_map.mp h
    refine List.mem_map.mpr ⟨a, ha, ?_⟩
    simp [hid]

/-- Witness for C8 (amended) at a concrete cached view. -/
theorem snapshot_replaces_update_in_place_witness :
    applySnapshot [⟨"x", "A", some "B", none, "old", "text", 0, 0, [], false⟩]
        [⟨"y", "B", some "A", none, "new", "text", 1, 1, [], false⟩]
      = [⟨"y", "B", some "A", none, "new", "text", 1, 1, [], false⟩] ∧
    (⟨"x", "A", some "B", none, "upd", "text", 0, 2, [⟨"B", "z", 2⟩], false⟩ : Message)
      ∈ applyMessageUpdated
          [⟨"x", "A", some "B", none, "old", "text", 0, 0, [], false⟩]
          ⟨"x", "A", some "B", none, "upd", "text", 0, 2, [⟨"B", "z", 2⟩], false⟩ := by
  have h := snapshot_replaces_update_in_place
    [⟨"x", "A", some "B", none, "old", "text", 0, 0, [], false⟩]
    [⟨"y", "B", some "A", none, "new", "text", 1, 1, [], false⟩]
    ⟨"x", "A", some "B", none, "upd", "text", 0, 2, [⟨"B", "z", 2⟩], false⟩
    (by decide)
  exact ⟨h.1, h.2.2.1⟩

/-- Counterexample for C8 as stated: a message present in the cached view but
absent from the REST snapshot disappears when the snapshot is applied — the
fetch handler replaces the view, it does not union-merge by id (a set-union
merge would have kept the cached entry). -/
theorem snapshot_drops_cached_message :
    (⟨"x", "A", some "B", none, "old", "text", 0, 0, [], false⟩ : Message)
      ∈ [(⟨"x", "A", some "B", none, "old", "text", 0, 0, [], false⟩ : Message)] ∧
    (⟨"x", "A", some "B", none, "old", "text", 0, 0, [], false⟩ : Message)
      ∉ applySnapshot
          [⟨"x", "A", some "B", none, "old", "text", 0, 0, [], false⟩]
          [⟨"y", "B", some "A", none, "new", "text", 1, 1, [], false⟩] := by
  decide

end Apx
